import Mathlib

/-!
Shallow embedding of the TVAgent connection-lifecycle manager.

The main model follows `src/unnamed/part_000` (the richer variant: capped
exponential backoff, bounded attempts, health check). The message-dispatch
handler of `src/tvagent.js` (the simple variant) is embedded separately as
`handleDecodedA` for the equivalence claim.

Modelling conventions:
- Machine timers are modelled per kind by a tracked-variable flag (the JS
  module variable holding the handle) plus an orphan counter (live timers no
  longer reachable from the variable); arming a timer while the variable
  still tracks a live one orphans the predecessor, which is exactly the
  leak the source's clear-before-arm discipline is meant to prevent.
- The one-shot reconnect timeout variable can additionally hold a fired or
  cancelled (dead) handle, since the source never nulls it: `ReconVar.stale`.
- Fire-and-forget side effects (the adb key injection, outbound frames) are
  recorded in trace lists; identity/timestamp payload fields supplied by the
  environment (device model, ip, ISO time strings) are omitted from the
  outbound message values since no control flow depends on them.
- `JSON.parse` failure on an inbound frame is modelled as `Option.none` at
  the decoded-message position; a decoded object's possibly-absent string
  fields are `Option String`.
-/

namespace TVAgent

/-- Constant `PING_INTERVAL` from `src/unnamed/part_000`: 60 * 1000 ms. -/
def PING_INTERVAL : Nat := 60 * 1000

/-- Constant `RECONNECT_DELAY_MIN` from `src/unnamed/part_000`: 5000 ms. -/
def RECONNECT_DELAY_MIN : Nat := 5000

/-- Constant `RECONNECT_DELAY_MAX` from `src/unnamed/part_000`: 300000 ms. -/
def RECONNECT_DELAY_MAX : Nat := 300000

/-- Constant `MAX_RECONNECT_ATTEMPTS` from `src/unnamed/part_000`: 100. -/
def MAX_RECONNECT_ATTEMPTS : Nat := 100

/-- The static `COMMAND_MAP` table (identical in both source variants). -/
def commandMap : String → Option Nat
  | "sleep" => some 223
  | "wake" => some 224
  | "power" => some 26
  | "volup" => some 24
  | "voldown" => some 25
  | "mute" => some 164
  | _ => none

/-- The argument value interpolated into `adb shell input keyevent` by
`sendKey`: a mapped numeric code, the raw command string passed through, or
the JS `undefined` value when the command field was absent. -/
inductive KeyArg where
  | code (n : Nat)
  | raw (s : String)
  | undef
  deriving Repr, DecidableEq

/-- Resolution performed by `sendKey`, `COMMAND_MAP[command] || command`: a mapped name
yields its code; an unmapped name falls through as the raw value; an absent
field stays `undefined`. -/
def resolveKey : Option String → KeyArg
  | none => KeyArg.undef
  | some c =>
    match commandMap c with
    | some n => KeyArg.code n
    | none => KeyArg.raw c

/-- A successfully parsed inbound JSON object, restricted to the fields the
handlers inspect (`data.type`, `data.target`, `data.command`); `none` marks
an absent field. -/
structure DecodedMsg where
  type : Option String
  target : Option String
  command : Option String
  deriving Repr, DecidableEq

/-- Outbound wire messages. Environment-supplied payload fields (device id,
model, ip, time strings) carry no control flow and are omitted; `confirm`
keeps the fields the dispatch logic computes. -/
inductive OutboundMsg where
  | register
  | ping
  | confirm (command : Option String) (status : String)
  deriving Repr, DecidableEq

/-- Observable outcome of running the inbound-message dispatch on one
decoded message: the executor invocation (if any) and the reply (if any). -/
structure DispatchResult where
  executed : Option KeyArg
  confirm : Option OutboundMsg
  deriving Repr, DecidableEq

/-- The `ws.on("message")` dispatch of `src/unnamed/part_000` after a
successful parse: welcome and pong return early; then a target match against
the device id or `"all"` runs `sendKey` and, when the socket is open, sends
the confirm reply echoing `data.command`. -/
def handleDecoded (tvId : String) (wsOpen : Bool) (d : DecodedMsg) :
    DispatchResult :=
  if d.type = some "welcome" then ⟨none, none⟩
  else if d.type = some "pong" then ⟨none, none⟩
  else if d.target = some tvId ∨ d.target = some "all" then
    ⟨some (resolveKey d.command),
      if wsOpen then some (OutboundMsg.confirm d.command "ok") else none⟩
  else ⟨none, none⟩

/-- The `ws.on("message")` dispatch of `src/tvagent.js` after a successful
parse: no welcome/pong interception; a target match runs `sendKey` and, when
the socket is open, sends the confirm reply echoing `data.command`. -/
def handleDecodedA (tvId : String) (wsOpen : Bool) (d : DecodedMsg) :
    DispatchResult :=
  if d.target = some tvId ∨ d.target = some "all" then
    ⟨some (resolveKey d.command),
      if wsOpen then some (OutboundMsg.confirm d.command "ok") else none⟩
  else ⟨none, none⟩

/-- WebSocket `readyState` values. -/
inductive WsReady where
  | connecting
  | opened
  | closing
  | closed
  deriving Repr, DecidableEq

/-- Contents of the one-shot `reconnectTimer` variable: `null`, a live
armed timeout, or a dead handle (fired or cancelled) that the source never
nulls out. -/
inductive ReconVar where
  | none
  | live
  | stale
  deriving Repr, DecidableEq

/-- The mutable module state of `src/unnamed/part_000`, plus trace fields
(`sent`, `executed`, `terminations`) recording observable side effects and
orphan counters recording timers leaked by arming without cancelling. -/
structure AgentState where
  wsConn : Option WsReady
  pingVar : Bool
  pingPeriod : Nat
  pingOrphans : Nat
  healthVar : Bool
  healthPeriod : Nat
  healthOrphans : Nat
  reconVar : ReconVar
  reconDelay : Nat
  reconOrphans : Nat
  isReconnecting : Bool
  isRegistered : Bool
  reconnectAttempts : Nat
  lastActivityTime : Nat
  exited : Option Nat
  sent : List OutboundMsg
  executed : List KeyArg
  terminations : Nat
  deriving Repr, DecidableEq

/-- Source `clearInterval(pingTimer); pingTimer = null` guarded by `if (pingTimer)`. -/
def clearPing (s : AgentState) : AgentState :=
  if s.pingVar then { s with pingVar := false } else s

/-- Source `clearInterval(healthCheckInterval); healthCheckInterval = null` guarded
by `if (healthCheckInterval)`. -/
def clearHealth (s : AgentState) : AgentState :=
  if s.healthVar then { s with healthVar := false } else s

/-- Source `if (reconnectTimer) clearTimeout(reconnectTimer)`: kills a live armed
timeout but leaves the dead handle in the variable. -/
def clearRecon (s : AgentState) : AgentState :=
  match s.reconVar with
  | ReconVar.live => { s with reconVar := ReconVar.stale }
  | _ => s

/-- Source `pingTimer = setInterval(..., p)`: arms a fresh interval; a live interval
still tracked by the variable would be orphaned. -/
def armPing (p : Nat) (s : AgentState) : AgentState :=
  { s with pingOrphans := s.pingOrphans + (if s.pingVar then 1 else 0),
           pingVar := true, pingPeriod := p }

/-- Source `healthCheckInterval = setInterval(..., p)`. -/
def armHealth (p : Nat) (s : AgentState) : AgentState :=
  { s with healthOrphans := s.healthOrphans + (if s.healthVar then 1 else 0),
           healthVar := true, healthPeriod := p }

/-- Source `reconnectTimer = setTimeout(..., d)`: arms a fresh one-shot timeout; a
still-live previous timeout would be orphaned. -/
def armRecon (d : Nat) (s : AgentState) : AgentState :=
  { s with reconOrphans :=
             s.reconOrphans + (if s.reconVar = ReconVar.live then 1 else 0),
           reconVar := ReconVar.live, reconDelay := d }

/-- Source `ws.close()` guarded by readyState OPEN or CONNECTING, as in `cleanup()`
and the stale-socket disposal in `connect()`. -/
def closeIfActive (s : AgentState) : AgentState :=
  if s.wsConn = some WsReady.opened ∨ s.wsConn = some WsReady.connecting then
    { s with wsConn := some WsReady.closing }
  else s

/-- Function `cleanup()` of `src/unnamed/part_000`: kills the ping interval and the
reconnect timeout if set, requests close on a connecting/open socket. It
does not touch `healthCheckInterval` (faithful to the source). -/
def cleanup (s : AgentState) : AgentState :=
  closeIfActive (clearRecon (clearPing s))

/-- The capped exponential backoff delay for a given (post-increment)
attempt number: `min(RECONNECT_DELAY_MIN * 2^(attempts-1), RECONNECT_DELAY_MAX)`. -/
def reconnectDelay (attempts : Nat) : Nat :=
  min (RECONNECT_DELAY_MIN * 2 ^ (attempts - 1)) RECONNECT_DELAY_MAX

/-- Function `scheduleReconnect()` of `src/unnamed/part_000`: no-op while a reconnect
is pending; terminal cleanup and `process.exit(1)` once the attempt bound is
reached; otherwise increments the attempt counter, cancels ping/health
timers and any previous reconnect timeout, and arms a one-shot reconnect
timeout with the backoff delay. -/
def scheduleReconnect (s : AgentState) : AgentState :=
  if s.isReconnecting then s
  else if MAX_RECONNECT_ATTEMPTS ≤ s.reconnectAttempts then
    { cleanup s with exited := some 1 }
  else
    armRecon (reconnectDelay (s.reconnectAttempts + 1))
      (clearRecon (clearHealth (clearPing
        { s with isReconnecting := true,
                 reconnectAttempts := s.reconnectAttempts + 1 })))

/-- Function `registerToServer()`: no-op once registered; otherwise the HTTP call
either succeeds (sets `isRegistered`) or fails (caught, no state change). -/
def registerToServer (success : Bool) (s : AgentState) : AgentState :=
  if s.isRegistered then s
  else if success then { s with isRegistered := true } else s

/-- Function `connect()`: discards the previous socket (listeners removed, close
requested — its events can no longer reach the handlers, so it drops out of
the model) and constructs a fresh one; on construction failure it schedules
a reconnect instead. -/
def connect (ok : Bool) (s : AgentState) : AgentState :=
  if ok then { s with wsConn := some WsReady.connecting }
  else scheduleReconnect { s with wsConn := Option.none }

/-- The `ws.on("open")` handler: socket becomes open, counters reset,
activity recorded, register frame sent, HTTP registration attempted, old
ping/health timers cleared, fresh ping and health intervals armed. -/
def handleOpen (regSuccess : Bool) (now : Nat) (s : AgentState) : AgentState :=
  armHealth (PING_INTERVAL * 2) (armPing PING_INTERVAL
    (clearHealth (clearPing (registerToServer regSuccess
      { s with wsConn := some WsReady.opened,
               reconnectAttempts := 0,
               isReconnecting := false,
               lastActivityTime := now,
               sent := s.sent ++ [OutboundMsg.register] }))))

/-- One firing of the ping interval: with an open socket a successful send
records the ping and bumps activity, a throwing send schedules a reconnect;
without an open socket it schedules a reconnect. -/
def pingTick (now : Nat) (sendOk : Bool) (s : AgentState) : AgentState :=
  if s.wsConn = some WsReady.opened then
    if sendOk then
      { s with sent := s.sent ++ [OutboundMsg.ping], lastActivityTime := now }
    else scheduleReconnect s
  else scheduleReconnect s

/-- One firing of the health-check interval: if idle time exceeds
`3 × PING_INTERVAL`, forcibly terminate the socket (if any) and schedule a
reconnect; otherwise do nothing. -/
def healthTick (now : Nat) (s : AgentState) : AgentState :=
  if PING_INTERVAL * 3 < now - s.lastActivityTime then
    scheduleReconnect
      (if s.wsConn.isSome then
        { s with wsConn := some WsReady.closed,
                 terminations := s.terminations + 1 }
      else s)
  else s

/-- Appends the observable effects of one dispatch outcome to the state:
the `sendKey` invocation (if any) and the confirm frame (if any). -/
def applyDispatch (r : DispatchResult) (s : AgentState) : AgentState :=
  let s2 := match r.executed with
    | Option.none => s
    | some k => { s with executed := s.executed ++ [k] }
  match r.confirm with
  | Option.none => s2
  | some m => { s2 with sent := s2.sent ++ [m] }

/-- The `ws.on("message")` handler: activity is bumped first, then the raw
payload is parsed; a parse failure is caught and dropped, a success runs the
dispatch and appends its observable effects. -/
def handleRawMessage (tvId : String) (raw : Option DecodedMsg) (now : Nat)
    (s : AgentState) : AgentState :=
  match raw with
  | Option.none => { s with lastActivityTime := now }
  | some d =>
    let s1 := { s with lastActivityTime := now }
    applyDispatch (handleDecoded tvId (s1.wsConn = some WsReady.opened) d) s1

/-- The `ws.on("close")` handler: the socket has closed; schedule a
reconnect. -/
def handleClose (s : AgentState) : AgentState :=
  scheduleReconnect { s with wsConn := some WsReady.closed }

/-- The transport-level `ping`/`pong` frame handlers: bump activity. -/
def handleFrame (now : Nat) (s : AgentState) : AgentState :=
  { s with lastActivityTime := now }

/-- Schedulable events: transport events on the current socket, timer
firings, inbound frames, and termination signals. Parameters stand for
environment choices (clock reading, send success, parse result, HTTP
registration outcome, socket construction success). -/
inductive Event where
  | openEv (regSuccess : Bool) (now : Nat)
  | closeEv
  | errorEv
  | reconnectFire (ok : Bool)
  | pingTickEv (now : Nat) (sendOk : Bool)
  | healthTickEv (now : Nat)
  | messageEv (raw : Option DecodedMsg) (now : Nat)
  | pingFrameEv (now : Nat)
  | pongFrameEv (now : Nat)
  | sigEv
  deriving Repr, DecidableEq

/-- The event-step function: each event is guarded by its enabling condition
(a timer only fires while live, socket events only arrive on the current
socket, nothing runs after `process.exit`). -/
def step (tvId : String) (s : AgentState) (e : Event) : AgentState :=
  if s.exited.isSome then s
  else
    match e with
    | Event.openEv rs now =>
      if s.wsConn = some WsReady.connecting then handleOpen rs now s else s
    | Event.closeEv => if s.wsConn.isSome then handleClose s else s
    | Event.errorEv => s
    | Event.reconnectFire ok =>
      if s.reconVar = ReconVar.live then
        connect ok { s with reconVar := ReconVar.stale, isReconnecting := false }
      else s
    | Event.pingTickEv now sendOk => if s.pingVar then pingTick now sendOk s else s
    | Event.healthTickEv now => if s.healthVar then healthTick now s else s
    | Event.messageEv raw now =>
      if s.wsConn = some WsReady.opened then handleRawMessage tvId raw now s else s
    | Event.pingFrameEv now =>
      if s.wsConn = some WsReady.opened then handleFrame now s else s
    | Event.pongFrameEv now =>
      if s.wsConn = some WsReady.opened then handleFrame now s else s
    | Event.sigEv => { cleanup s with exited := some 0 }

/-- Module state right after initialisation (`t0` is the startup clock
reading stored into `lastActivityTime`). -/
def initState (t0 : Nat) : AgentState :=
  { wsConn := Option.none, pingVar := false, pingPeriod := 0, pingOrphans := 0,
    healthVar := false, healthPeriod := 0, healthOrphans := 0,
    reconVar := ReconVar.none, reconDelay := 0, reconOrphans := 0,
    isReconnecting := false, isRegistered := false,
    reconnectAttempts := 0, lastActivityTime := t0,
    exited := Option.none, sent := [], executed := [], terminations := 0 }

/-- States reachable by the process: the startup `connect()` call followed
by any interleaving of events. -/
inductive Reachable (tvId : String) : AgentState → Prop where
  | start (ok : Bool) (t0 : Nat) : Reachable tvId (connect ok (initState t0))
  | next {s : AgentState} (e : Event) :
      Reachable tvId s → Reachable tvId (step tvId s e)

/-- Number of live ping intervals outstanding. -/
def pingOutstanding (s : AgentState) : Nat :=
  s.pingOrphans + (if s.pingVar then 1 else 0)

/-- Number of live health-check intervals outstanding. -/
def healthOutstanding (s : AgentState) : Nat :=
  s.healthOrphans + (if s.healthVar then 1 else 0)

/-- Number of live reconnect timeouts outstanding. -/
def reconOutstanding (s : AgentState) : Nat :=
  s.reconOrphans + (if s.reconVar = ReconVar.live then 1 else 0)

/-- The inductive invariant: no timer of any kind has ever been orphaned,
the attempt counter respects its bound, and an armed ping/health interval
carries the period it was armed with in the source. -/
def Inv (s : AgentState) : Prop :=
  s.pingOrphans = 0 ∧ s.healthOrphans = 0 ∧ s.reconOrphans = 0 ∧
  s.reconnectAttempts ≤ MAX_RECONNECT_ATTEMPTS ∧
  (s.pingVar = true → s.pingPeriod = PING_INTERVAL) ∧
  (s.healthVar = true → s.healthPeriod = PING_INTERVAL * 2)

instance (s : AgentState) : Decidable (Inv s) := by
  unfold Inv; infer_instance

theorem inv_clearPing (s : AgentState) (h : Inv s) : Inv (clearPing s) := by
  unfold Inv clearPing at *
  split <;> simp_all

theorem inv_clearHealth (s : AgentState) (h : Inv s) : Inv (clearHealth s) := by
  unfold Inv clearHealth at *
  split <;> simp_all

theorem inv_clearRecon (s : AgentState) (h : Inv s) : Inv (clearRecon s) := by
  unfold Inv clearRecon at *
  split <;> simp_all

theorem inv_closeIfActive (s : AgentState) (h : Inv s) :
    Inv (closeIfActive s) := by
  unfold Inv closeIfActive at *
  split <;> simp_all

theorem inv_cleanup (s : AgentState) (h : Inv s) : Inv (cleanup s) := by
  exact inv_closeIfActive _ (inv_clearRecon _ (inv_clearPing _ h))

theorem inv_scheduleReconnect (s : AgentState) (h : Inv s) :
    Inv (scheduleReconnect s) := by
  unfold scheduleReconnect
  split
  · exact h
  · split
    · have h2 := inv_cleanup s h
      unfold Inv at *
      simp_all
    · rename_i hb
      unfold Inv armRecon clearRecon clearHealth clearPing at *
      split <;> split <;> split <;> simp_all <;> omega

theorem inv_registerToServer (b : Bool) (s : AgentState) (h : Inv s) :
    Inv (registerToServer b s) := by
  unfold Inv registerToServer at *
  split
  · exact h
  · split <;> simp_all

theorem inv_connect (ok : Bool) (s : AgentState) (h : Inv s) :
    Inv (connect ok s) := by
  unfold connect
  split
  · unfold Inv at *; simp_all
  · apply inv_scheduleReconnect
    unfold Inv at *; simp_all

theorem inv_handleOpen (rs : Bool) (now : Nat) (s : AgentState) (h : Inv s) :
    Inv (handleOpen rs now s) := by
  unfold handleOpen
  have h1 : Inv (registerToServer rs
      { s with wsConn := some WsReady.opened, reconnectAttempts := 0,
               isReconnecting := false, lastActivityTime := now,
               sent := s.sent ++ [OutboundMsg.register] }) := by
    apply inv_registerToServer
    unfold Inv at *; simp_all
  have h2 := inv_clearHealth _ (inv_clearPing _ h1)
  have hp : (clearHealth (clearPing (registerToServer rs
      { s with wsConn := some WsReady.opened, reconnectAttempts := 0,
               isReconnecting := false, lastActivityTime := now,
               sent := s.sent ++ [OutboundMsg.register] }))).pingVar = false := by
    unfold clearHealth clearPing
    split <;> split <;> simp_all
  have hh : (clearHealth (clearPing (registerToServer rs
      { s with wsConn := some WsReady.opened, reconnectAttempts := 0,
               isReconnecting := false, lastActivityTime := now,
               sent := s.sent ++ [OutboundMsg.register] }))).healthVar = false := by
    unfold clearHealth clearPing
    split <;> split <;> simp_all
  unfold Inv armHealth armPing at *
  simp_all

theorem inv_pingTick (now : Nat) (b : Bool) (s : AgentState) (h : Inv s) :
    Inv (pingTick now b s) := by
  unfold pingTick
  split
  · split
    · unfold Inv at *; simp_all
    · exact inv_scheduleReconnect s h
  · exact inv_scheduleReconnect s h

theorem inv_healthTick (now : Nat) (s : AgentState) (h : Inv s) :
    Inv (healthTick now s) := by
  unfold healthTick
  split
  · apply inv_scheduleReconnect
    split
    · unfold Inv at *; simp_all
    · exact h
  · exact h

theorem inv_handleRawMessage (tvId : String) (raw : Option DecodedMsg)
    (now : Nat) (s : AgentState) (h : Inv s) :
    Inv (handleRawMessage tvId raw now s) := by
  unfold handleRawMessage applyDispatch
  cases raw with
  | none => unfold Inv at *; simp_all
  | some d =>
    simp only []
    unfold Inv at *
    split <;> split <;> simp_all

theorem inv_handleClose (s : AgentState) (h : Inv s) : Inv (handleClose s) := by
  unfold handleClose
  apply inv_scheduleReconnect
  unfold Inv at *; simp_all

theorem inv_step (tvId : String) (s : AgentState) (e : Event) (h : Inv s) :
    Inv (step tvId s e) := by
  unfold step
  split
  · exact h
  · cases e with
    | openEv rs now =>
      simp only []
      split
      · exact inv_handleOpen rs now s h
      · exact h
    | closeEv =>
      simp only []
      split
      · exact inv_handleClose s h
      · exact h
    | errorEv => exact h
    | reconnectFire ok =>
      simp only []
      split
      · apply inv_connect
        unfold Inv at *; simp_all
      · exact h
    | pingTickEv now sendOk =>
      simp only []
      split
      · exact inv_pingTick now sendOk s h
      · exact h
    | healthTickEv now =>
      simp only []
      split
      · exact inv_healthTick now s h
      · exact h
    | messageEv raw now =>
      simp only []
      split
      · exact inv_handleRawMessage tvId raw now s h
      · exact h
    | pingFrameEv now =>
      simp only []
      split
      · unfold Inv handleFrame at *; simp_all
      · exact h
    | pongFrameEv now =>
      simp only []
      split
      · unfold Inv handleFrame at *; simp_all
      · exact h
    | sigEv =>
      have h2 := inv_cleanup s h
      unfold Inv at *; simp_all

theorem inv_init (t0 : Nat) : Inv (initState t0) := by
  unfold Inv initState MAX_RECONNECT_ATTEMPTS
  simp

theorem inv_reachable (tvId : String) (s : AgentState)
    (h : Reachable tvId s) : Inv s := by
  induction h with
  | start ok t0 => exact inv_connect ok _ (inv_init t0)
  | next e _ ih => exact inv_step tvId _ e ih

theorem clearPing_eq (s : AgentState) :
    clearPing s = { s with pingVar := false } := by
  unfold clearPing
  split
  · rfl
  · rename_i h
    simp only [Bool.not_eq_true] at h
    cases s
    simp_all

theorem clearHealth_eq (s : AgentState) :
    clearHealth s = { s with healthVar := false } := by
  unfold clearHealth
  split
  · rfl
  · rename_i h
    simp only [Bool.not_eq_true] at h
    cases s
    simp_all

theorem clearRecon_eq (s : AgentState) :
    clearRecon s = { s with reconVar :=
      if s.reconVar = ReconVar.live then ReconVar.stale else s.reconVar } := by
  unfold clearRecon
  cases hr : s.reconVar <;> simp [hr] <;> cases s <;> simp_all

theorem registerToServer_eq (b : Bool) (s : AgentState) :
    registerToServer b s = { s with isRegistered := s.isRegistered || b } := by
  unfold registerToServer
  split
  · rename_i h
    cases s
    simp_all
  · rename_i h
    simp only [Bool.not_eq_true] at h
    cases b
    · cases s
      simp_all
    · simp [h]

theorem scheduleReconnect_noop (s : AgentState)
    (h : s.isReconnecting = true) : scheduleReconnect s = s := by
  unfold scheduleReconnect
  simp [h]

theorem scheduleReconnect_armed (s : AgentState)
    (h1 : s.isReconnecting = false)
    (h2 : s.reconnectAttempts < MAX_RECONNECT_ATTEMPTS) :
    scheduleReconnect s =
      { s with isReconnecting := true,
               reconnectAttempts := s.reconnectAttempts + 1,
               pingVar := false, healthVar := false,
               reconVar := ReconVar.live,
               reconDelay := reconnectDelay (s.reconnectAttempts + 1) } := by
  unfold scheduleReconnect
  rw [if_neg (by simp [h1]), if_neg (by omega)]
  rw [clearPing_eq, clearHealth_eq, clearRecon_eq]
  unfold armRecon
  split <;> cases s <;> simp_all

/-- C2: for every attempts ≥ 1 the delay armed by `scheduleReconnect` on the
attempt numbered `attempts` equals
`min (RECONNECT_DELAY_MIN * 2 ^ (attempts - 1)) RECONNECT_DELAY_MAX`, the
delay is non-decreasing in the attempt number, and with the source constants
(5000 / 300000) attempts 1..7 yield 5000, 10000, 20000, 40000, 80000,
160000, 300000. -/
theorem c2_backoff_delay :
    (∀ s : AgentState, s.isReconnecting = false →
      s.reconnectAttempts < MAX_RECONNECT_ATTEMPTS →
      (scheduleReconnect s).reconDelay =
        min (RECONNECT_DELAY_MIN * 2 ^ (s.reconnectAttempts + 1 - 1))
          RECONNECT_DELAY_MAX) ∧
    (∀ a b : Nat, 1 ≤ a → a ≤ b → reconnectDelay a ≤ reconnectDelay b) ∧
    (reconnectDelay 1 = 5000 ∧ reconnectDelay 2 = 10000 ∧
     reconnectDelay 3 = 20000 ∧ reconnectDelay 4 = 40000 ∧
     reconnectDelay 5 = 80000 ∧ reconnectDelay 6 = 160000 ∧
     reconnectDelay 7 = 300000) := by
  refine ⟨?_, ?_, ?_⟩
  · intro s h1 h2
    rw [scheduleReconnect_armed s h1 h2]
    rfl
  · intro a b _ hab
    unfold reconnectDelay
    exact min_le_min
      (Nat.mul_le_mul_left _
        (Nat.pow_le_pow_right (by norm_num) (Nat.sub_le_sub_right hab 1)))
      (le_refl _)
  · decide

/-- Witness for C2 at concrete inputs: the startup state arms attempt 1 with
the formula value, and the delay is monotone between attempts 3 and 5. -/
theorem c2_backoff_delay_witness :
    (scheduleReconnect (initState 0)).reconDelay =
      min (RECONNECT_DELAY_MIN * 2 ^ (0 + 1 - 1)) RECONNECT_DELAY_MAX ∧
    reconnectDelay 3 ≤ reconnectDelay 5 :=
  ⟨c2_backoff_delay.1 (initState 0) (by decide) (by decide),
   c2_backoff_delay.2.1 3 5 (by decide) (by decide)⟩

/-- C6: `scheduleReconnect` is a no-op (full state identity) whenever a
reconnect is already pending, so a second call made while the first is
pending leaves the state after the first call unchanged. -/
theorem c6_schedule_idempotent :
    (∀ s : AgentState, s.isReconnecting = true → scheduleReconnect s = s) ∧
    (∀ s : AgentState, (scheduleReconnect s).isReconnecting = true →
      scheduleReconnect (scheduleReconnect s) = scheduleReconnect s) :=
  ⟨fun s h => scheduleReconnect_noop s h,
   fun _ h => scheduleReconnect_noop _ h⟩

/-- Witness for C6 at a concrete pending state. -/
theorem c6_schedule_idempotent_witness :
    scheduleReconnect { initState 0 with isReconnecting := true } =
      { initState 0 with isReconnecting := true } ∧
    scheduleReconnect (scheduleReconnect (initState 0)) =
      scheduleReconnect (initState 0) :=
  ⟨c6_schedule_idempotent.1 _ (by decide),
   c6_schedule_idempotent.2 (initState 0) (by decide)⟩

theorem closeIfActive_eq (s : AgentState) :
    closeIfActive s = { s with wsConn :=
      (if s.wsConn = some WsReady.opened ∨ s.wsConn = some WsReady.connecting
       then some WsReady.closing else s.wsConn) } := by
  unfold closeIfActive
  split <;> rename_i h <;> simp [h]

theorem scheduleReconnect_exit (s : AgentState)
    (h1 : s.isReconnecting = false)
    (h2 : MAX_RECONNECT_ATTEMPTS ≤ s.reconnectAttempts) :
    scheduleReconnect s = { cleanup s with exited := some 1 } := by
  unfold scheduleReconnect
  rw [if_neg (by simp [h1]), if_pos h2]

theorem cleanup_fields (s : AgentState) :
    (cleanup s).pingVar = false ∧ (cleanup s).reconVar ≠ ReconVar.live ∧
    (cleanup s).isReconnecting = s.isReconnecting ∧
    (cleanup s).isRegistered = s.isRegistered ∧
    (cleanup s).reconnectAttempts = s.reconnectAttempts := by
  unfold cleanup
  rw [closeIfActive_eq, clearRecon_eq, clearPing_eq]
  refine ⟨rfl, ?_, rfl, rfl, rfl⟩
  simp only []
  split <;> simp_all

theorem step_frozen (tvId : String) (s : AgentState) (e : Event)
    (h : s.exited.isSome = true) : step tvId s e = s := by
  unfold step
  rw [if_pos h]

theorem handleOpen_eq (rs : Bool) (now : Nat) (s : AgentState) :
    handleOpen rs now s =
      { s with wsConn := some WsReady.opened,
               reconnectAttempts := 0,
               isReconnecting := false,
               lastActivityTime := now,
               sent := s.sent ++ [OutboundMsg.register],
               isRegistered := s.isRegistered || rs,
               pingVar := true, pingPeriod := PING_INTERVAL,
               healthVar := true, healthPeriod := PING_INTERVAL * 2 } := by
  unfold handleOpen armHealth armPing
  rw [clearHealth_eq, clearPing_eq, registerToServer_eq]
  rfl

/-- C3: the attempt counter increments on every armed reconnect scheduling,
resets to 0 in the open handler, never exceeds `MAX_RECONNECT_ATTEMPTS` in
any reachable state, and a `scheduleReconnect` call with no reconnect
pending that finds the bound already reached tears down (ping timer killed,
no live reconnect timeout, reconnect never marked pending) and exits with
status 1, after which every further event is inert, so no reconnect is ever
scheduled again. -/
theorem c3_attempts_lifecycle :
    (∀ s : AgentState, s.isReconnecting = false →
       s.reconnectAttempts < MAX_RECONNECT_ATTEMPTS →
       (scheduleReconnect s).reconnectAttempts = s.reconnectAttempts + 1) ∧
    (∀ (rs : Bool) (now : Nat) (s : AgentState),
       (handleOpen rs now s).reconnectAttempts = 0) ∧
    (∀ (tvId : String) (s : AgentState), Reachable tvId s →
       s.reconnectAttempts ≤ MAX_RECONNECT_ATTEMPTS) ∧
    (∀ s : AgentState, s.isReconnecting = false →
       MAX_RECONNECT_ATTEMPTS ≤ s.reconnectAttempts →
       (scheduleReconnect s).exited = some 1 ∧
       (scheduleReconnect s).reconVar ≠ ReconVar.live ∧
       (scheduleReconnect s).pingVar = false ∧
       (scheduleReconnect s).isReconnecting = false) ∧
    (∀ (tvId : String) (s : AgentState) (e : Event),
       s.exited.isSome = true → step tvId s e = s) := by
  refine ⟨?_, ?_, fun tvId s h => (inv_reachable tvId s h).2.2.2.1, ?_,
    step_frozen⟩
  · intro s h1 h2
    rw [scheduleReconnect_armed s h1 h2]
  · intro rs now s
    rw [handleOpen_eq]
  · intro s h1 h2
    rw [scheduleReconnect_exit s h1 h2]
    have hc := cleanup_fields s
    refine ⟨rfl, ?_, ?_, ?_⟩ <;> simp_all

/-- Witness for C3 at concrete inputs: the startup state increments to 1,
an open resets to 0, the startup reachable state respects the bound, an
exhausted state exits with status 1, and a dead process ignores events. -/
theorem c3_attempts_lifecycle_witness :
    (scheduleReconnect (initState 0)).reconnectAttempts =
      (initState 0).reconnectAttempts + 1 ∧
    (handleOpen true 7 (initState 0)).reconnectAttempts = 0 ∧
    (connect true (initState 0)).reconnectAttempts ≤ MAX_RECONNECT_ATTEMPTS ∧
    (scheduleReconnect
        { initState 0 with reconnectAttempts := 100 }).exited = some 1 ∧
    step "TV-ABCD1234" { initState 0 with exited := some 1 } Event.closeEv =
      { initState 0 with exited := some 1 } :=
  ⟨c3_attempts_lifecycle.1 (initState 0) (by decide) (by decide),
   c3_attempts_lifecycle.2.1 true 7 (initState 0),
   c3_attempts_lifecycle.2.2.1 "TV-ABCD1234" _ (Reachable.start true 0),
   (c3_attempts_lifecycle.2.2.2.1 { initState 0 with reconnectAttempts := 100 }
     (by decide) (by decide)).1,
   c3_attempts_lifecycle.2.2.2.2 "TV-ABCD1234"
     { initState 0 with exited := some 1 } Event.closeEv (by decide)⟩

/-- C5: in every reachable state at most one ping interval, at most one
health-check interval and at most one reconnect timeout are outstanding,
and no timer of any kind has ever been armed without its predecessor being
cancelled first (orphan counters stay 0). -/
theorem c5_timer_uniqueness (tvId : String) (s : AgentState)
    (h : Reachable tvId s) :
    pingOutstanding s ≤ 1 ∧ healthOutstanding s ≤ 1 ∧
    reconOutstanding s ≤ 1 ∧
    s.pingOrphans = 0 ∧ s.healthOrphans = 0 ∧ s.reconOrphans = 0 := by
  have hi := inv_reachable tvId s h
  unfold Inv at hi
  obtain ⟨h1, h2, h3, _, _, _⟩ := hi
  unfold pingOutstanding healthOutstanding reconOutstanding
  refine ⟨?_, ?_, ?_, h1, h2, h3⟩ <;> split <;> omega

/-- Witness for C5 at the concrete startup state. -/
theorem c5_timer_uniqueness_witness :
    pingOutstanding (connect true (initState 0)) ≤ 1 ∧
    healthOutstanding (connect true (initState 0)) ≤ 1 ∧
    reconOutstanding (connect true (initState 0)) ≤ 1 ∧
    (connect true (initState 0)).pingOrphans = 0 ∧
    (connect true (initState 0)).healthOrphans = 0 ∧
    (connect true (initState 0)).reconOrphans = 0 :=
  c5_timer_uniqueness "TV-ABCD1234" _ (Reachable.start true 0)

theorem isRegistered_scheduleReconnect (s : AgentState) :
    (scheduleReconnect s).isRegistered = s.isRegistered := by
  by_cases h1 : s.isReconnecting = true
  · rw [scheduleReconnect_noop s h1]
  · simp only [Bool.not_eq_true] at h1
    by_cases h2 : s.reconnectAttempts < MAX_RECONNECT_ATTEMPTS
    · rw [scheduleReconnect_armed s h1 h2]
    · rw [scheduleReconnect_exit s h1 (by omega)]
      exact (cleanup_fields s).2.2.2.1

theorem isRegistered_connect (ok : Bool) (s : AgentState) :
    (connect ok s).isRegistered = s.isRegistered := by
  unfold connect
  split
  · rfl
  · rw [isRegistered_scheduleReconnect]

theorem isRegistered_pingTick (now : Nat) (b : Bool) (s : AgentState) :
    (pingTick now b s).isRegistered = s.isRegistered := by
  unfold pingTick
  split
  · split
    · rfl
    · rw [isRegistered_scheduleReconnect]
  · rw [isRegistered_scheduleReconnect]

theorem isRegistered_healthTick (now : Nat) (s : AgentState) :
    (healthTick now s).isRegistered = s.isRegistered := by
  unfold healthTick
  split
  · rw [isRegistered_scheduleReconnect]
    split <;> rfl
  · rfl

theorem isRegistered_handleRawMessage (tvId : String) (raw : Option DecodedMsg)
    (now : Nat) (s : AgentState) :
    (handleRawMessage tvId raw now s).isRegistered = s.isRegistered := by
  unfold handleRawMessage applyDispatch
  cases raw with
  | none => rfl
  | some d =>
    simp only []
    split <;> split <;> rfl

theorem isRegistered_handleClose (s : AgentState) :
    (handleClose s).isRegistered = s.isRegistered := by
  unfold handleClose
  rw [isRegistered_scheduleReconnect]

theorem isRegistered_step_mono (tvId : String) (s : AgentState) (e : Event)
    (h : s.isRegistered = true) : (step tvId s e).isRegistered = true := by
  unfold step
  split
  · exact h
  · cases e with
    | openEv rs now =>
      simp only []
      split
      · rw [handleOpen_eq]
        simp [h]
      · exact h
    | closeEv =>
      simp only []
      split
      · rw [isRegistered_handleClose]; exact h
      · exact h
    | errorEv => exact h
    | reconnectFire ok =>
      simp only []
      split
      · rw [isRegistered_connect]; exact h
      · exact h
    | pingTickEv now sendOk =>
      simp only []
      split
      · rw [isRegistered_pingTick]; exact h
      · exact h
    | healthTickEv now =>
      simp only []
      split
      · rw [isRegistered_healthTick]; exact h
      · exact h
    | messageEv raw now =>
      simp only []
      split
      · rw [isRegistered_handleRawMessage]; exact h
      · exact h
    | pingFrameEv now =>
      simp only []
      split
      · exact h
      · exact h
    | pongFrameEv now =>
      simp only []
      split
      · exact h
      · exact h
    | sigEv =>
      simp only []
      have := (cleanup_fields s).2.2.2.1
      simp_all

/-- C7: the registration-confirmed flag is monotone and set only by a
successful call: `registerToServer` is a full no-op once registered, a
successful call sets the flag, a failed call leaves the entire state
(including every socket-state variable) unchanged, and no event of the
state machine ever resets a set flag — so registration is never retried
after its first success, across arbitrarily many reconnects. -/
theorem c7_registration_once :
    (∀ (b : Bool) (s : AgentState), s.isRegistered = true →
       registerToServer b s = s) ∧
    (∀ s : AgentState, (registerToServer true s).isRegistered = true) ∧
    (∀ s : AgentState, registerToServer false s = s) ∧
    (∀ (tvId : String) (s : AgentState) (e : Event), s.isRegistered = true →
       (step tvId s e).isRegistered = true) := by
  refine ⟨?_, ?_, ?_, ?_⟩
  · intro b s h
    unfold registerToServer
    rw [if_pos h]
  · intro s
    rw [registerToServer_eq]
    simp
  · intro s
    rw [registerToServer_eq]
    cases s
    simp
  · exact isRegistered_step_mono

/-- Witness for C7 at concrete inputs. -/
theorem c7_registration_once_witness :
    registerToServer false { initState 0 with isRegistered := true } =
      { initState 0 with isRegistered := true } ∧
    (registerToServer true (initState 0)).isRegistered = true ∧
    registerToServer false (initState 0) = initState 0 ∧
    (step "TV-ABCD1234" { initState 0 with isRegistered := true }
        Event.closeEv).isRegistered = true :=
  ⟨c7_registration_once.1 false _ (by decide),
   c7_registration_once.2.1 (initState 0),
   c7_registration_once.2.2.1 (initState 0),
   c7_registration_once.2.2.2 "TV-ABCD1234" _ Event.closeEv (by decide)⟩

theorem healthTick_stale (now : Nat) (s : AgentState)
    (hidle : PING_INTERVAL * 3 < now - s.lastActivityTime)
    (hws : s.wsConn.isSome = true) :
    healthTick now s = scheduleReconnect
      { s with wsConn := some WsReady.closed,
               terminations := s.terminations + 1 } := by
  unfold healthTick
  rw [if_pos hidle, if_pos hws]

/-- C8: in every reachable state an armed health-check interval carries the
period `2 × PING_INTERVAL`; while alive it fires through `step` exactly as
`healthTick`; a tick that finds idle time `≤ 3 × PING_INTERVAL` changes
nothing; a stale tick forcibly terminates the socket (termination counter,
not a graceful close) and invokes `scheduleReconnect`; and in that staleness
episode the reconnect is scheduled exactly once — the tick arms one live
reconnect timeout, marks reconnecting, kills the health timer so no further
stale tick can fire, and a repeated `scheduleReconnect` is a no-op. -/
theorem c8_health_stale_reconnect (tvId : String) :
    (∀ s : AgentState, Reachable tvId s → s.healthVar = true →
       s.healthPeriod = PING_INTERVAL * 2) ∧
    (∀ (s : AgentState) (now : Nat), s.exited = Option.none →
       s.healthVar = true →
       step tvId s (Event.healthTickEv now) = healthTick now s) ∧
    (∀ (s : AgentState) (now : Nat),
       ¬ PING_INTERVAL * 3 < now - s.lastActivityTime →
       healthTick now s = s) ∧
    (∀ (s : AgentState) (now : Nat),
       PING_INTERVAL * 3 < now - s.lastActivityTime →
       s.wsConn.isSome = true →
       healthTick now s = scheduleReconnect
         { s with wsConn := some WsReady.closed,
                  terminations := s.terminations + 1 }) ∧
    (∀ (s : AgentState) (now : Nat),
       PING_INTERVAL * 3 < now - s.lastActivityTime →
       s.wsConn.isSome = true → s.isReconnecting = false →
       s.reconnectAttempts < MAX_RECONNECT_ATTEMPTS →
       (healthTick now s).terminations = s.terminations + 1 ∧
       (healthTick now s).isReconnecting = true ∧
       (healthTick now s).reconVar = ReconVar.live ∧
       (healthTick now s).healthVar = false ∧
       scheduleReconnect (healthTick now s) = healthTick now s) := by
  refine ⟨fun s h hv => (inv_reachable tvId s h).2.2.2.2.2 hv, ?_, ?_,
    fun s now => healthTick_stale now s, ?_⟩
  · intro s now h1 h2
    unfold step
    rw [if_neg (by simp [h1])]
    simp only []
    rw [if_pos h2]
  · intro s now h
    unfold healthTick
    rw [if_neg h]
  · intro s now h1 h2 h3 h4
    rw [healthTick_stale now s h1 h2,
        scheduleReconnect_armed
          { s with wsConn := some WsReady.closed,
                   terminations := s.terminations + 1 } h3 h4]
    exact ⟨rfl, rfl, rfl, rfl, scheduleReconnect_noop _ rfl⟩

/-- Witness for C8 at concrete inputs: the state right after a successful
open has the health period armed at `2 × PING_INTERVAL`; a fresh state is
not stale at time 0; and a stale open state at time 1000000 terminates and
schedules exactly one reconnect. -/
theorem c8_health_stale_reconnect_witness :
    (step "TV-ABCD1234" (connect true (initState 0))
        (Event.openEv false 3)).healthPeriod = PING_INTERVAL * 2 ∧
    healthTick 0 (initState 0) = initState 0 ∧
    (healthTick 1000000
        { initState 0 with wsConn := some WsReady.opened }).isReconnecting =
      true ∧
    (healthTick 1000000
        { initState 0 with wsConn := some WsReady.opened }).terminations = 1 :=
  ⟨(c8_health_stale_reconnect "TV-ABCD1234").1 _
      (Reachable.next (Event.openEv false 3) (Reachable.start true 0))
      (by decide),
   (c8_health_stale_reconnect "TV-ABCD1234").2.2.1 (initState 0) 0 (by decide),
   ((c8_health_stale_reconnect "TV-ABCD1234").2.2.2.2
      { initState 0 with wsConn := some WsReady.opened } 1000000
      (by decide) (by decide) (by decide) (by decide)).2.1,
   ((c8_health_stale_reconnect "TV-ABCD1234").2.2.2.2
      { initState 0 with wsConn := some WsReady.opened } 1000000
      (by decide) (by decide) (by decide) (by decide)).1⟩

/-- C1: for every decoded inbound message that is not welcome or pong, a
target matching the device id or `"all"` invokes the executor with the key
code resolved through `COMMAND_MAP` (`"sleep"` resolving to 223, unmapped
names passing through raw) and sends a `confirm`/`"ok"` reply exactly when
the transport is open, while a non-matching target drops the message:
nothing is executed, nothing is sent, only the activity timestamp moves. -/
theorem c1_dispatch (tvId : String) (d : DecodedMsg)
    (hw : d.type ≠ some "welcome") (hp : d.type ≠ some "pong") :
    (∀ (s : AgentState) (now : Nat), s.wsConn = some WsReady.opened →
       (d.target = some tvId ∨ d.target = some "all") →
       handleRawMessage tvId (some d) now s =
         { s with lastActivityTime := now,
                  executed := s.executed ++ [resolveKey d.command],
                  sent := s.sent ++ [OutboundMsg.confirm d.command "ok"] }) ∧
    (∀ wsOpen : Bool, (d.target = some tvId ∨ d.target = some "all") →
       (handleDecoded tvId wsOpen d).executed = some (resolveKey d.command) ∧
       ((handleDecoded tvId wsOpen d).confirm =
          some (OutboundMsg.confirm d.command "ok") ↔ wsOpen = true)) ∧
    (∀ (s : AgentState) (now : Nat),
       ¬(d.target = some tvId ∨ d.target = some "all") →
       handleRawMessage tvId (some d) now s =
         { s with lastActivityTime := now }) ∧
    resolveKey (some "sleep") = KeyArg.code 223 := by
  have hD : ∀ wsOpen : Bool, (d.target = some tvId ∨ d.target = some "all") →
      handleDecoded tvId wsOpen d =
        ⟨some (resolveKey d.command),
         if wsOpen then some (OutboundMsg.confirm d.command "ok")
         else Option.none⟩ := by
    intro wsOpen ht
    unfold handleDecoded
    rw [if_neg hw, if_neg hp, if_pos ht]
  have hN : ∀ wsOpen : Bool, ¬(d.target = some tvId ∨ d.target = some "all") →
      handleDecoded tvId wsOpen d = ⟨Option.none, Option.none⟩ := by
    intro wsOpen ht
    unfold handleDecoded
    rw [if_neg hw, if_neg hp, if_neg ht]
  refine ⟨?_, ?_, ?_, rfl⟩
  · intro s now hws ht
    unfold handleRawMessage
    simp only [hws, decide_eq_true_eq]
    rw [hD _ ht]
    rfl
  · intro wsOpen ht
    rw [hD _ ht]
    cases wsOpen <;> simp
  · intro s now ht
    unfold handleRawMessage
    simp only []
    rw [hN _ ht]
    rfl

/-- Witness for C1 at the spec scenario: inbound
`target := "all"`, `command := "sleep"` with device id `TV-ABCD1234` on an
open transport executes key code 223 and sends the ok confirm. -/
theorem c1_dispatch_witness :
    handleRawMessage "TV-ABCD1234"
        (some ⟨Option.none, some "all", some "sleep"⟩) 4
        { initState 0 with wsConn := some WsReady.opened } =
      { initState 0 with wsConn := some WsReady.opened,
                         lastActivityTime := 4,
                         executed := [KeyArg.code 223],
                         sent := [OutboundMsg.confirm (some "sleep") "ok"] } ∧
    resolveKey (some "sleep") = KeyArg.code 223 :=
  ⟨((c1_dispatch "TV-ABCD1234" ⟨Option.none, some "all", some "sleep"⟩
      (by decide) (by decide)).1
      { initState 0 with wsConn := some WsReady.opened } 4 rfl
      (Or.inr rfl)),
   (c1_dispatch "TV-ABCD1234" ⟨Option.none, some "all", some "sleep"⟩
      (by decide) (by decide)).2.2.2⟩

/-- C4 counterexample: a malformed inbound payload (parse failure) on an
open socket does mutate state — the activity timestamp is updated before
the decode attempt, moving from 0 to 5 here — contradicting the claim that
decode failure precedes the activity update. -/
theorem c4_counterexample :
    (step "TV-ABCD1234" { initState 0 with wsConn := some WsReady.opened }
        (Event.messageEv Option.none 5)).lastActivityTime = 5 ∧
    ({ initState 0 with wsConn := some WsReady.opened } :
        AgentState).lastActivityTime = 0 := by
  constructor <;> rfl

/-- C4 amended: a malformed inbound payload is handled without crash, the
message is discarded (no executor call, no reply, no reconnect, no other
mutation), and the only state change is the activity-timestamp update,
which the handler performs before the decode attempt. -/
theorem c4_malformed_only_activity (tvId : String) :
    (∀ (s : AgentState) (now : Nat),
       handleRawMessage tvId Option.none now s =
         { s with lastActivityTime := now }) ∧
    (∀ (s : AgentState) (now : Nat), s.exited = Option.none →
       s.wsConn = some WsReady.opened →
       step tvId s (Event.messageEv Option.none now) =
         { s with lastActivityTime := now }) := by
  refine ⟨fun s now => rfl, ?_⟩
  intro s now h1 h2
  unfold step
  rw [if_neg (by simp [h1])]
  simp only []
  rw [if_pos h2]
  rfl

/-- Witness for C4's amended claim at a concrete open state. -/
theorem c4_malformed_only_activity_witness :
    handleRawMessage "TV-ABCD1234" Option.none 9 (initState 0) =
      { initState 0 with lastActivityTime := 9 } ∧
    step "TV-ABCD1234" { initState 0 with wsConn := some WsReady.opened }
        (Event.messageEv Option.none 9) =
      { initState 0 with wsConn := some WsReady.opened,
                         lastActivityTime := 9 } :=
  ⟨(c4_malformed_only_activity "TV-ABCD1234").1 (initState 0) 9,
   (c4_malformed_only_activity "TV-ABCD1234").2
      { initState 0 with wsConn := some WsReady.opened } 9 rfl rfl⟩

/-- C9 counterexample: the two variants are not behaviorally equivalent up
to backoff and branch-id — on the inbound message
`type := "welcome"`, `target := "all"`, `command := "sleep"` the richer
variant drops the message while the simple variant executes it and
confirms. -/
theorem c9_counterexample :
    handleDecoded "TV-ABCD1234" true
        ⟨some "welcome", some "all", some "sleep"⟩ ≠
      handleDecodedA "TV-ABCD1234" true
        ⟨some "welcome", some "all", some "sleep"⟩ := by
  decide

/-- C9 amended: the two variants' inbound-message dispatch agrees on every
decoded message whose type is neither `"welcome"` nor `"pong"` (same
executor invocation, same confirm reply); messages typed welcome/pong are
intercepted only by the richer variant, which — together with the liveness
handling (health check and activity tracking) present only in the richer
variant — is a behavioral difference beyond the documented backoff-strategy
and branch-id ones. -/
theorem c9_dispatch_equiv (tvId : String) (wsOpen : Bool) (d : DecodedMsg)
    (hw : d.type ≠ some "welcome") (hp : d.type ≠ some "pong") :
    handleDecoded tvId wsOpen d = handleDecodedA tvId wsOpen d := by
  unfold handleDecoded handleDecodedA
  rw [if_neg hw, if_neg hp]

/-- Witness for C9's amended equivalence at a concrete command message. -/
theorem c9_dispatch_equiv_witness :
    handleDecoded "TV-ABCD1234" true
        ⟨Option.none, some "all", some "sleep"⟩ =
      handleDecodedA "TV-ABCD1234" true
        ⟨Option.none, some "all", some "sleep"⟩ :=
  c9_dispatch_equiv "TV-ABCD1234" true _ (by decide) (by decide)

/-- C10 counterexample: an inbound message whose target matches (`"all"`)
and whose command field is absent does not always reach the executor — a
welcome-typed such message is dropped before the target check. -/
theorem c10_counterexample :
    ((⟨some "welcome", some "all", Option.none⟩ : DecodedMsg).target =
        some "all") ∧
    (handleDecoded "TV-ABCD1234" true
        ⟨some "welcome", some "all", Option.none⟩).executed = Option.none := by
  decide

/-- C10 amended: for every inbound message that is not welcome or pong
whose target matches the device id or `"all"`, the executor is invoked even
when the command is absent or unmapped — with the raw value, which is the
JS `undefined` when the field is absent — and any confirm reply echoes the
raw inbound command value, never the resolved key code. -/
theorem c10_raw_passthrough (tvId : String) (wsOpen : Bool) (d : DecodedMsg)
    (hw : d.type ≠ some "welcome") (hp : d.type ≠ some "pong")
    (ht : d.target = some tvId ∨ d.target = some "all") :
    ((handleDecoded tvId wsOpen d).executed = some (resolveKey d.command)) ∧
    (d.command = Option.none →
       (handleDecoded tvId wsOpen d).executed = some KeyArg.undef) ∧
    (∀ c : String, d.command = some c → commandMap c = Option.none →
       (handleDecoded tvId wsOpen d).executed = some (KeyArg.raw c)) ∧
    ((handleDecoded tvId wsOpen d).confirm = Option.none ∨
       (handleDecoded tvId wsOpen d).confirm =
         some (OutboundMsg.confirm d.command "ok")) := by
  unfold handleDecoded
  rw [if_neg hw, if_neg hp, if_pos ht]
  refine ⟨rfl, ?_, ?_, ?_⟩
  · intro hc
    rw [hc]
    rfl
  · intro c hc hm
    rw [hc]
    simp [resolveKey, hm]
  · cases wsOpen <;> simp

/-- Witness for C10's amended claim: an absent command reaches the executor
as `undefined`, an unmapped command string passes through raw, and the
confirm echoes the raw command. -/
theorem c10_raw_passthrough_witness :
    (handleDecoded "TV-ABCD1234" true
        ⟨Option.none, some "all", Option.none⟩).executed =
      some KeyArg.undef ∧
    (handleDecoded "TV-ABCD1234" true
        ⟨Option.none, some "all", some "zzz"⟩).executed =
      some (KeyArg.raw "zzz") ∧
    ((handleDecoded "TV-ABCD1234" true
        ⟨Option.none, some "all", some "zzz"⟩).confirm = Option.none ∨
     (handleDecoded "TV-ABCD1234" true
        ⟨Option.none, some "all", some "zzz"⟩).confirm =
      some (OutboundMsg.confirm (some "zzz") "ok")) :=
  ⟨(c10_raw_passthrough "TV-ABCD1234" true
      ⟨Option.none, some "all", Option.none⟩ (by decide) (by decide)
      (Or.inr rfl)).2.1 rfl,
   (c10_raw_passthrough "TV-ABCD1234" true
      ⟨Option.none, some "all", some "zzz"⟩ (by decide) (by decide)
      (Or.inr rfl)).2.2.1 "zzz" rfl (by decide),
   (c10_raw_passthrough "TV-ABCD1234" true
      ⟨Option.none, some "all", some "zzz"⟩ (by decide) (by decide)
      (Or.inr rfl)).2.2.2⟩

end TVAgent
